import Mathlib

/-!
Verification of the focus-tracking daemon (i3-focus-last).

This file shallowly embeds the core state machines of the repository:

* `FocusState` / `stepF` — the `FocusTrackerInner` cell state and the
  transitions performed by `FocusTracker::track` and the spawned `track`
  task in `src/x11/focustracker.rs`;
* `FocusState.switch` — `FocusTracker::switch`;
* `drain` / `runQueue` — `Queue::process_queue` in `src/x11/rqueue.rs`
  together with the closure registered by `DisplayServer::send_request`;
* `dispatchEvent` — the event dispatch of `DisplayServer::main_loop`
  in `src/x11/mod.rs`;
* `watch_xkb_state` and friends — the lazily created modifier watcher
  in `src/x11/mod.rs`;
* `cmd_server_setup` / `socketPath` — the discovery behaviour of
  `cmd_server` in `src/main.rs` and `xprop::set` in `src/xprop.rs`.
-/

namespace I3FocusLast

/-- Model of `x::Window`: a window identifier. -/
abbrev Window := Nat

/-- Model of `x::ModMask`: a keyboard-modifier bitmask. `0` is the empty
mask (`ModMask::is_empty`). -/
abbrev ModMask := Nat

/-- State of the `FocusTrackerInner` cell in `src/x11/focustracker.rs`:
`cookie` is the generation counter, `current`/`last` the tracked windows,
`current_accepted` the debounce flag. -/
structure FocusState where
  cookie : Nat
  current : Option Window
  current_accepted : Bool
  last : Option Window
deriving Repr, DecidableEq

/-- The `Default` derive of `FocusTrackerInner`: counter `0`, no windows,
not accepted. -/
def FocusState.init : FocusState := ⟨0, none, false, none⟩

/-- Resumption points of the system, as seen by the tracker cell.
`observe` is the synchronous body of `FocusTracker::track` (increment the
cookie, spawn a chain that captured the new cookie `g`).  The other
constructors are the resumptions of a spawned `track` chain that captured
generation `g`: `modsReply` is the return of the `xkb::GetState` request,
`activeReply g m v` the return of the `x::GetProperty` request for
`_NET_ACTIVE_WINDOW` (with `m` the mask captured from the earlier
`GetState` reply and `v` the property value, `none` when the property is
empty), and `maskChange` one published value of the modifier watch the
chain is waiting on. -/
inductive TrackInput where
  | observe : TrackInput
  | modsReply (g : Nat) (m : ModMask) : TrackInput
  | activeReply (g : Nat) (m : ModMask) (v : Option Window) : TrackInput
  | maskChange (g : Nat) (m : ModMask) : TrackInput
deriving Repr, DecidableEq

/-- One transition of the tracker cell, from `src/x11/focustracker.rs`.

* `observe`: `FocusTracker::track` lines 20–21 — bump the cookie.
* `modsReply`: the `request!` macro checks `cookie != ft.cookie.get()`
  after the reply and mutates nothing.
* `activeReply`: after the cookie check, the straight-line block of the
  `track` body runs with no intervening await: the re-confirmation
  shortcut, the guarded promotion of `current` into `last`, the update of
  `current`, and the acceptance decision from the captured mask.
* `maskChange`: the debounce loop; on a published empty mask the chain
  breaks out, re-checks the cookie and sets `current_accepted`; a
  non-empty mask keeps waiting; a stale cookie returns without mutation. -/
def stepF (st : FocusState) : TrackInput → FocusState
  | .observe => { st with cookie := st.cookie + 1 }
  | .modsReply _ _ => st
  | .activeReply g m v =>
      if st.cookie = g then
        match v with
        | none => st
        | some w =>
          if st.current = some w then { st with current_accepted := true }
          else
            let st1 := if st.current_accepted then { st with last := st.current } else st
            let st2 := { st1 with current := some w }
            if m = 0 then { st2 with current_accepted := true }
            else { st2 with current_accepted := false }
      else st
  | .maskChange g m =>
      if st.cookie = g ∧ m = 0 then { st with current_accepted := true } else st

/-- A complete, uninterrupted focus observation: `FocusTracker::track`
followed by both replies of the spawned chain at the generation it
captured, with modifier mask `m` at the time of the `GetState` reply and
`v` the value read from `_NET_ACTIVE_WINDOW`. -/
def observeTrack (st : FocusState) (m : ModMask) (v : Window) : FocusState :=
  let st1 := stepF st .observe
  let st2 := stepF st1 (.modsReply st1.cookie m)
  stepF st2 (.activeReply st1.cookie m (some v))

/-- Process a sequence of focus observations, each with its modifier mask
at observation time. -/
def runSeqMods (st : FocusState) (l : List (ModMask × Window)) : FocusState :=
  l.foldl (fun s p => observeTrack s p.1 p.2) st

/-- `FocusTracker::switch`: swap the `last` and `current` cells and return
the new value of `current`. -/
def FocusState.switch (st : FocusState) : FocusState × Option Window :=
  let st1 := { st with last := st.current, current := st.last }
  (st1, st1.current)

/-- Model of an X protocol reply payload. -/
abbrev Reply := Nat

/-- Model of an `xcb` cookie: the correlation id of one in-flight request. -/
abbrev Cookie := Nat

/-- One drain of `Queue::process_queue` (src/x11/rqueue.rs) over the
pending cookies `q`, where `poll c` models `poll_for_reply` for the
closure registered by `DisplayServer::send_request` for cookie `c`: the
first component lists the requests resolved during this drain (cookie with
its reply sent through the oneshot channel; the closure returns `false`
and is removed), the second lists the cookies re-queued because their
reply has not arrived (the closure returns `true`), in their original
order. -/
def drain (poll : Cookie → Option Reply) (q : List Cookie) :
    List (Cookie × Option Reply) × List Cookie :=
  (q.filterMap fun c => (poll c).map fun r => (c, some r),
   q.filter fun c => (poll c).isNone)

/-- A whole run of the Request Completion Queue: each element of `steps`
is one reactor drain, holding its poll outcome and the cookies of requests
submitted before the next drain (`Queue::add` pushes them at the back).
When the run ends, the connection has terminated: the queue and its
closures are dropped, every pending oneshot sender is dropped, and each
awaiting `rx.await` in `send_request` resolves with
`Err(xcb::Error::Connection(ConnError::Connection))`, modelled as a `none`
result. -/
def runQueue : List ((Cookie → Option Reply) × List Cookie) → List Cookie →
    List (Cookie × Option Reply)
  | [], q => q.map fun c => (c, none)
  | (p, adds) :: steps, q =>
      (drain p q).1 ++ runQueue steps ((drain p q).2 ++ adds)

/-- Events drained by `DisplayServer::main_loop` (src/x11/mod.rs), with the
originating window where one exists. `unknownEvent` stands for every event
shape not matched by the first three arms. -/
inductive XEvent where
  | propertyNotify (window : Window) (newValue : Bool) (atom : Nat)
  | clientMessage (window : Window) (msgType : Nat)
  | xkbStateNotify (mods : ModMask)
  | unknownEvent (window : Option Window)
deriving Repr, DecidableEq

/-- Outcome of dispatching one drained event: which handler runs,
`logUnexpected` for the `eprintln!("Unexpected event: ...")` arm,
`dropSilently` for falling through with no effect and no log.
`fatalError` would be loop termination; dispatch never produces it (the
loop only terminates when `poll_for_event` itself fails). -/
inductive Dispatch where
  | handleRootProperty (w : Window) (newValue : Bool) (atom : Nat)
  | handleClientMessage (w : Window) (msgType : Nat)
  | handleXkbState (mods : ModMask)
  | logUnexpected
  | dropSilently
  | fatalError
deriving Repr, DecidableEq

/-- The event dispatch of `DisplayServer::main_loop`: a `PropertyNotify`
arm guarded by `is_root`, so a property event on a non-root window fails
the guard and falls into the catch-all logging arm; a `ClientMessage` arm
that checks `is_root` in its body and otherwise does nothing; an XKB state
arm with no window check; and the catch-all `unknown => eprintln!` arm. -/
def dispatchEvent (roots : List Window) : XEvent → Dispatch
  | .propertyNotify w nv a =>
      if roots.contains w then .handleRootProperty w nv a else .logUnexpected
  | .clientMessage w t =>
      if roots.contains w then .handleClientMessage w t else .dropSilently
  | .xkbStateNotify m => .handleXkbState m
  | .unknownEvent _ => .logUnexpected

/-- State of the modifier watcher machinery in `src/x11/mod.rs`:
`sender` is the content of the `xkb_state_watcher` mutex (at most one
`watch::Sender`, identified by a creation index), `receivers` the number of
live receivers of that sender, `xkbEnabled` whether `xkb_select_events`
last enabled `STATE_NOTIFY` delivery, and `created` counts the watch
channels created so far. -/
structure WatchState where
  sender : Option Nat
  receivers : Nat
  xkbEnabled : Bool
  created : Nat
deriving Repr, DecidableEq

/-- `DisplayServer::watch_xkb_state`: with a watcher present, subscribe to
it (one more receiver) and return it; with none present, enable XKB
notifications, create a fresh watch channel (one receiver), store its
sender and spawn the close listener. Returns the new state and the sender
the returned receiver belongs to. -/
def watch_xkb_state (s : WatchState) : WatchState × Nat :=
  match s.sender with
  | some w => ({ s with receivers := s.receivers + 1 }, w)
  | none =>
      ({ sender := some s.created, receivers := 1, xkbEnabled := true,
         created := s.created + 1 }, s.created)

/-- The body of the task spawned by `xkb_close_listener` at the moment
`tx.closed()` completes, which happens exactly when no live receiver
remains: clear the stored watcher and disable XKB notifications. -/
def xkb_close_listener_fire (s : WatchState) : WatchState :=
  if s.receivers = 0 then { s with sender := none, xkbEnabled := false }
  else s

/-- `DisplayServer::handle_xkb_state` on a state-notify event: publish the
mask through the stored watcher when it exists and the send succeeds
(some receiver is alive); otherwise disable XKB notifications. Returns the
new state and whether the mask was published. -/
def handle_xkb_state (s : WatchState) (_m : ModMask) : WatchState × Bool :=
  match s.sender with
  | some _ =>
      if s.receivers > 0 then (s, true)
      else ({ s with xkbEnabled := false }, false)
  | none => ({ s with xkbEnabled := false }, false)

/-- Property name `SOCKET_PATH_PROP` in `src/main.rs`, under which the
server publishes its rendezvous socket path. -/
def SOCKET_PATH_PROP : String := "_I3_ALTERNATE_FOCUS_SOCKET"

/-- The socket path computed at the top of `cmd_server` (src/main.rs):
`$XDG_RUNTIME_DIR` (or `/tmp` when unset) joined with
`i3-alternate-focus.<pid>.<timestamp>.sock`. -/
def socketPath (xdgRuntimeDir : Option String) (pid timestamp : Nat) : String :=
  let base :=
    match xdgRuntimeDir with
    | some p => p
    | none => "/tmp"
  base ++ "/" ++ "i3-alternate-focus." ++ toString pid ++ "."
    ++ toString timestamp ++ ".sock"

/-- Observable discovery footprint of server startup: the window-property
writes it performs (via `xprop::set`, a `ChangeProperty` on the root
window) and whether it binds a listening Unix socket. -/
structure ServerSetup where
  propertyWrites : List (String × String)
  unixListenerBound : Bool
deriving Repr, DecidableEq

/-- Discovery behaviour of `cmd_server` (src/main.rs lines 56–81): it
computes the socket path, writes it into the root-window property
`SOCKET_PATH_PROP` through `xprop::set`, and binds a `UnixListener` on
that path. -/
def cmd_server_setup (xdgRuntimeDir : Option String) (pid timestamp : Nat) :
    ServerSetup :=
  { propertyWrites := [(SOCKET_PATH_PROP, socketPath xdgRuntimeDir pid timestamp)],
    unixListenerBound := true }

/-- The window property `focus_client` (src/main.rs) reads through
`xprop::get` to locate the server's socket before connecting to it. -/
def focus_client_lookup : String := SOCKET_PATH_PROP

/-- C1: along any sequence of focus-tracking transitions, `last` is only
overwritten in a transition whose pre-state had `current_accepted = true`,
and what is stored is the previously accepted `current`. Stated for every
single transition of the tracker cell, hence for every transition of every
sequence. (`switch` is not a focus-tracking transition and is out of this
claim's scope.) -/
theorem last_only_promoted_when_accepted (st : FocusState) (i : TrackInput) :
    (stepF st i).last = st.last ∨
      (st.current_accepted = true ∧ (stepF st i).last = st.current) := by
  cases i with
  | observe => exact Or.inl rfl
  | modsReply g m => exact Or.inl rfl
  | maskChange g m =>
      by_cases h : st.cookie = g ∧ m = 0 <;> simp [stepF, h]
  | activeReply g m v =>
      by_cases hg : st.cookie = g
      · cases v with
        | none => simp [stepF, hg]
        | some w =>
            by_cases hc : st.current = some w
            · simp [stepF, hg, hc]
            · by_cases ha : st.current_accepted <;>
                by_cases hm : m = 0 <;>
                simp [stepF, hg, hc, ha, hm]
      · simp [stepF, hg]

/-- C4: `switch()` exchanges `last` and `current` and returns the new
`current`, i.e. the window that was `last` before the call; in particular
when `last` was `none` it returns `none`. -/
theorem switch_exchanges (st : FocusState) :
    st.switch.2 = st.last ∧
    st.switch.1.current = st.last ∧
    st.switch.1.last = st.current ∧
    st.switch.2 = st.switch.1.current ∧
    (FocusState.switch { st with last := none }).2 = none := by
  refine ⟨rfl, rfl, rfl, rfl, rfl⟩

/-- C5: `switch()` is self-inverse: two consecutive calls with no
intervening focus observation restore the original state, in particular
the original `(current, last)` pair. -/
theorem switch_self_inverse (st : FocusState) :
    st.switch.1.switch.1 = st := by
  cases st
  rfl

/-- C10: when `last` is `none` and `current` is some window `w`, `switch()`
returns `none` but still performs the exchange: afterwards `current` is
`none` and `last` is `w`. -/
theorem switch_mutates_on_empty_last (st : FocusState) (w : Window) :
    (FocusState.switch { st with current := some w, last := none }).2 = none ∧
    (FocusState.switch { st with current := some w, last := none }).1.current = none ∧
    (FocusState.switch { st with current := some w, last := none }).1.last = some w := by
  refine ⟨rfl, rfl, rfl⟩

/-- Helper: no transition of the tracker cell ever decreases the cookie,
so a chain that is stale stays stale. -/
theorem stepF_cookie_mono (st : FocusState) (i : TrackInput) :
    st.cookie ≤ (stepF st i).cookie := by
  cases i with
  | observe => exact Nat.le_succ _
  | modsReply g m => exact Nat.le_refl _
  | maskChange g m =>
      by_cases h : st.cookie = g ∧ m = 0 <;> simp [stepF, h]
  | activeReply g m v =>
      by_cases hg : st.cookie = g
      · cases v with
        | none => simp [stepF, hg]
        | some w =>
            by_cases hc : st.current = some w
            · simp [stepF, hg, hc]
            · by_cases ha : st.current_accepted <;>
                by_cases hm : m = 0 <;>
                simp [stepF, hg, hc, ha, hm]
      · simp [stepF, hg]

/-- C3: a focus observation increments the generation counter and touches
nothing else; a chain whose captured generation `g` is below the cell's
cookie (`g + k + 1` ranges over every such cookie) performs no mutation at
any of its checkpoints (`GetState` reply, `GetProperty` reply, published
mask), and after any further transition the chain is still stale, so it
never mutates the cell again. -/
theorem stale_generation_noop (st : FocusState) (g k m : Nat)
    (v : Option Window) (i : TrackInput) :
    (stepF st .observe).cookie = st.cookie + 1 ∧
    (stepF st .observe).current = st.current ∧
    (stepF st .observe).current_accepted = st.current_accepted ∧
    (stepF st .observe).last = st.last ∧
    stepF { st with cookie := g + k + 1 } (.modsReply g m)
      = { st with cookie := g + k + 1 } ∧
    stepF { st with cookie := g + k + 1 } (.activeReply g m v)
      = { st with cookie := g + k + 1 } ∧
    stepF { st with cookie := g + k + 1 } (.maskChange g m)
      = { st with cookie := g + k + 1 } ∧
    g < (stepF { st with cookie := g + k + 1 } i).cookie := by
  have hne : g + k + 1 ≠ g := by omega
  refine ⟨rfl, rfl, rfl, rfl, rfl, ?_, ?_, ?_⟩
  · simp [stepF, hne]
  · simp [stepF, hne]
  · have := stepF_cookie_mono { st with cookie := g + k + 1 } i
    simp only at this
    omega

/-- Helper: a first observation from a non-accepted state with no current
window (the tracker's default state) with an empty modifier mask installs
the observed window as accepted `current` and leaves `last` alone. -/
theorem observeTrack_first (k : Nat) (la : Option Window) (v : Window) :
    observeTrack ⟨k, none, false, la⟩ 0 v = ⟨k + 1, some v, true, la⟩ := by
  simp [observeTrack, stepF]

/-- Helper: an observation of a fresh window `v` from an accepted state
with an empty modifier mask promotes the old `current` into `last` and
installs `v` as the accepted `current`. -/
theorem observeTrack_next (k : Nat) (la : Option Window) (c v : Window)
    (h : c ≠ v) :
    observeTrack ⟨k, some c, true, la⟩ 0 v = ⟨k + 1, some v, true, some c⟩ := by
  simp [observeTrack, stepF, h]

/-- Helper: running a duplicate-free window sequence with empty masks from
an accepted state tracks the final window in `current` and the
second-to-last window of the whole history in `last`. -/
theorem runSeq_from_accepted (l : List Window) :
    ∀ (c : Window) (k : Nat) (la : Option Window),
      List.Chain' (· ≠ ·) (c :: l) →
      (runSeqMods ⟨k, some c, true, la⟩ (l.map fun w => ((0 : ModMask), w))).current
          = (c :: l).getLast? ∧
      (runSeqMods ⟨k, some c, true, la⟩
          (l.map fun w => ((0 : ModMask), w))).current_accepted = true ∧
      (runSeqMods ⟨k, some c, true, la⟩ (l.map fun w => ((0 : ModMask), w))).last
          = (if l = [] then la else ((c :: l).dropLast).getLast?) := by
  induction l with
  | nil =>
      intro c k la _
      simp [runSeqMods]
  | cons b l2 ih =>
      intro c k la hch
      rw [List.chain'_cons] at hch
      obtain ⟨hcb, hch2⟩ := hch
      have hstep :
          runSeqMods ⟨k, some c, true, la⟩ ((b :: l2).map fun w => ((0 : ModMask), w))
            = runSeqMods ⟨k + 1, some b, true, some c⟩
                (l2.map fun w => ((0 : ModMask), w)) := by
        simp only [List.map_cons, runSeqMods, List.foldl_cons]
        rw [show observeTrack ⟨k, some c, true, la⟩ 0 b = ⟨k + 1, some b, true, some c⟩
              from observeTrack_next k la c b hcb]
      rw [hstep]
      have ihh := ih b (k + 1) (some c) hch2
      refine ⟨?_, ihh.2.1, ?_⟩
      · rw [ihh.1, List.getLast?_cons_cons]
      · rw [ihh.2.2]
        by_cases hl : l2 = []
        · subst hl
          simp
        · obtain ⟨x, xs, rfl⟩ := List.exists_cons_of_ne_nil hl
          simp [List.dropLast_cons₂, List.getLast?_cons_cons]

/-- Helper: a list of observations whose masks are all empty is the image
of its window sequence under the pairing with the empty mask. -/
theorem all_empty_mask_repr (l : List (ModMask × Window))
    (hmods : ∀ p ∈ l, p.1 = 0) :
    l = (l.map Prod.snd).map fun w => ((0 : ModMask), w) := by
  induction l with
  | nil => rfl
  | cons p ps ih =>
      have h1 : p.1 = 0 := hmods p (List.mem_cons_self p ps)
      have h2 := ih fun q hq => hmods q (List.mem_cons_of_mem p hq)
      cases p with
      | mk m w =>
          simp only at h1
          subst h1
          simp only [List.map_cons]
          rw [← h2]

/-- C2: with the modifier mask empty at every observation, after processing
a non-empty focus sequence with no consecutive repeats, `current` is the
last observed window and `last` is the second-to-last (none when fewer than
two windows were observed). -/
theorem track_sequence_last_pair (l : List (ModMask × Window))
    (hne : l ≠ [])
    (hmods : ∀ p ∈ l, p.1 = 0)
    (hch : List.Chain' (· ≠ ·) (l.map Prod.snd)) :
    (runSeqMods FocusState.init l).current = (l.map Prod.snd).getLast? ∧
    (runSeqMods FocusState.init l).last
      = ((l.map Prod.snd).dropLast).getLast? := by
  have hrepr := all_empty_mask_repr l hmods
  obtain ⟨w1, rest, hws⟩ :
      ∃ w1 rest, l.map Prod.snd = w1 :: rest := by
    cases hl : l.map Prod.snd with
    | nil => exact absurd (List.map_eq_nil_iff.mp hl) hne
    | cons a t => exact ⟨a, t, rfl⟩
  rw [hws] at hrepr hch
  rw [hws, hrepr]
  have hfirst :
      runSeqMods FocusState.init ((w1 :: rest).map fun w => ((0 : ModMask), w))
        = runSeqMods ⟨1, some w1, true, none⟩
            (rest.map fun w => ((0 : ModMask), w)) := by
    simp only [List.map_cons, runSeqMods, List.foldl_cons]
    rw [show observeTrack FocusState.init 0 w1 = ⟨1, some w1, true, none⟩
          from observeTrack_first 0 none w1]
  rw [hfirst]
  have haux := runSeq_from_accepted rest w1 1 none hch
  refine ⟨haux.1, ?_⟩
  rw [haux.2.2]
  by_cases hr : rest = []
  · subst hr
    simp
  · simp [hr]

/-- Witness for C2 at the concrete observation sequence 5, 7, 9 with empty
masks: afterwards `current = 9` and `last = 7`. -/
theorem track_sequence_last_pair_witness :
    (runSeqMods FocusState.init [(0, 5), (0, 7), (0, 9)]).current = some 9 ∧
    (runSeqMods FocusState.init [(0, 5), (0, 7), (0, 9)]).last = some 7 := by
  have h := track_sequence_last_pair [(0, 5), (0, 7), (0, 9)]
    (by decide) (by decide) (by simp [List.chain'_cons])
  simpa using h

/-- Helper: the cookies resolved by one drain are the pending cookies whose
reply arrived, in their original order. -/
theorem drain_resolved_cookies (poll : Cookie → Option Reply) (q : List Cookie) :
    (drain poll q).1.map Prod.fst = q.filter fun c => (poll c).isSome := by
  induction q with
  | nil => rfl
  | cons c q2 ih =>
      cases hpc : poll c <;>
        simp only [drain, List.filterMap_cons, List.filter_cons, hpc] at ih ⊢ <;>
        simp [hpc, ih]

/-- Helper: splitting a pending list into the resolved and the re-queued
part is a permutation of the whole list. -/
theorem drain_split_perm (poll : Cookie → Option Reply) (q : List Cookie) :
    ((q.filter fun c => (poll c).isSome) ++ (q.filter fun c => (poll c).isNone)).Perm q := by
  induction q with
  | nil => simp
  | cons c q2 ih =>
      cases hpc : poll c with
      | some r =>
          simp only [List.filter_cons, hpc, Option.isSome_some, Option.isNone_some,
            List.cons_append]
          exact ih.cons c
      | none =>
          simp only [List.filter_cons, hpc, Option.isSome_none, Option.isNone_none]
          exact List.perm_middle.trans (ih.cons c)

/-- C6: every request that enters the Request Completion Queue — in the
initial pending list or submitted between drains — is resolved exactly
once: the cookies of the produced resolutions are a permutation of all
submitted cookies. A poll match resolves and removes the closure, a miss
re-queues it (`drain`), and when the run ends with the connection
terminated every still-pending request resolves with the connection-error
result (`none`) instead of remaining pending. -/
theorem rqueue_exactly_once
    (steps : List ((Cookie → Option Reply) × List Cookie)) (q : List Cookie) :
    ((runQueue steps q).map Prod.fst).Perm (q ++ (steps.map Prod.snd).flatten) ∧
    runQueue [] q = q.map fun c => (c, none) := by
  refine ⟨?_, rfl⟩
  induction steps generalizing q with
  | nil => simp [runQueue, Function.comp_def]
  | cons s steps2 ih =>
      obtain ⟨p, adds⟩ := s
      simp only [runQueue, List.map_append, List.map_cons, List.flatten_cons]
      refine List.Perm.trans
        (List.Perm.append_left _ (ih ((drain p q).2 ++ adds))) ?_
      rw [drain_resolved_cookies]
      simp only [drain, ← List.append_assoc]
      exact List.Perm.append_right _
        (List.Perm.append_right _ (drain_split_perm p q))

/-- Counterexample to C7 as stated: a `PropertyNotify` event originating
from window `2`, which is outside the root window set `[1]`, is not
dropped silently — it fails the arm's `is_root` guard, falls into the
catch-all arm and is logged as an unexpected event. -/
theorem silent_drop_counterexample :
    ([1] : List Window).contains 2 = false ∧
    dispatchEvent [1] (.propertyNotify 2 true 0) = Dispatch.logUnexpected ∧
    dispatchEvent [1] (.propertyNotify 2 true 0) ≠ Dispatch.dropSilently := by
  refine ⟨rfl, rfl, by decide⟩

/-- C7 (amended): a `ClientMessage` from outside the Root Window Set is
dropped silently; a `PropertyNotify` from outside the Root Window Set
falls through to the catch-all arm and is logged; every unrecognized event
— on a root window or not — is logged and ignored; dispatch never
terminates the loop. -/
theorem dispatch_outside_roots (roots : List Window) (w : Window)
    (nv : Bool) (a t : Nat) (h : roots.contains w = false) :
    dispatchEvent roots (.clientMessage w t) = Dispatch.dropSilently ∧
    dispatchEvent roots (.propertyNotify w nv a) = Dispatch.logUnexpected ∧
    (∀ ow, dispatchEvent roots (.unknownEvent ow) = Dispatch.logUnexpected) ∧
    (∀ e, dispatchEvent roots e ≠ Dispatch.fatalError) := by
  have h2 : w ∉ roots := by simpa using h
  refine ⟨by simp [dispatchEvent, h2], by simp [dispatchEvent, h2], fun ow => rfl, ?_⟩
  intro e
  cases e <;> simp only [dispatchEvent] <;> first
    | (intro hct; cases hct)
    | (split <;> intro hct <;> cases hct)

/-- Witness for C7 (amended) with root window set `[1]` and an event
window `2` outside it. -/
theorem dispatch_outside_roots_witness :
    ([1] : List Window).contains 2 = false ∧
    dispatchEvent [1] (.clientMessage 2 3) = Dispatch.dropSilently ∧
    dispatchEvent [1] (.propertyNotify 2 true 0) = Dispatch.logUnexpected ∧
    dispatchEvent [1] (.unknownEvent (some 1)) = Dispatch.logUnexpected := by
  have h := dispatch_outside_roots [1] 2 true 0 3 (by decide)
  exact ⟨by decide, h.1, h.2.1, h.2.2.1 (some 1)⟩

/-- C8: the first subscription (no watcher stored) enables the XKB
notification stream and creates the single watch; a subscription while a
watcher exists returns the same watch and creates no new one, so at most
one watch exists at a time (the `xkb_state_watcher` slot is an `Option`);
when the live-receiver count returns to zero the close listener clears the
slot and disables the stream; and with the slot cleared a state-notify
event publishes nothing and keeps the stream disabled until the next
subscription. -/
theorem modifier_watcher_lifecycle (s : WatchState) (w : Nat) (m : ModMask) :
    (watch_xkb_state { s with sender := none }).1.xkbEnabled = true ∧
    (watch_xkb_state { s with sender := none }).1.sender = some s.created ∧
    (watch_xkb_state { s with sender := none }).1.created = s.created + 1 ∧
    (watch_xkb_state { s with sender := some w }).1.created = s.created ∧
    (watch_xkb_state { s with sender := some w }).1.sender = some w ∧
    (watch_xkb_state { s with sender := some w }).2 = w ∧
    (xkb_close_listener_fire { s with receivers := 0 }).sender = none ∧
    (xkb_close_listener_fire { s with receivers := 0 }).xkbEnabled = false ∧
    (handle_xkb_state { s with sender := none } m).2 = false ∧
    (handle_xkb_state { s with sender := none } m).1.xkbEnabled = false := by
  refine ⟨rfl, rfl, rfl, rfl, rfl, rfl, ?_, ?_, rfl, rfl⟩ <;>
    simp [xkb_close_listener_fire]

/-- Counterexample to C9 as stated: at startup (here with `XDG_RUNTIME_DIR`
unset, pid `1`, timestamp `0`) the server writes the root-window property
`_I3_ALTERNATE_FOCUS_SOCKET` holding the rendezvous socket path, and binds
a listening Unix socket — it does publish discovery state. -/
theorem discovery_state_counterexample :
    (cmd_server_setup none 1 0).propertyWrites
        = [("_I3_ALTERNATE_FOCUS_SOCKET", "/tmp/i3-alternate-focus.1.0.sock")] ∧
    (cmd_server_setup none 1 0).propertyWrites ≠ [] ∧
    (cmd_server_setup none 1 0).unixListenerBound = true := by
  refine ⟨rfl, by simp [cmd_server_setup], rfl⟩

/-- C9 (amended): the server publishes discovery state: it writes exactly
one root-window property, `SOCKET_PATH_PROP`, holding the path of the Unix
socket it binds and listens on, and the switch client locates the server
by reading that same property (not by a fixed marker on the root
window). -/
theorem discovery_state_amended (xdg : Option String) (pid ts : Nat) :
    (cmd_server_setup xdg pid ts).propertyWrites
        = [(SOCKET_PATH_PROP, socketPath xdg pid ts)] ∧
    (cmd_server_setup xdg pid ts).unixListenerBound = true ∧
    focus_client_lookup = SOCKET_PATH_PROP := by
  refine ⟨rfl, rfl, rfl⟩

end I3FocusLast
